import Mathlib

/-!
Verification of `src/platform_impl/web/web_sys/canvas.rs`: a shallow
embedding of the canvas surface, its listener slots, the capability probe
and the fullscreen deferred-retry automaton, with theorems settling the
spec's claims about them.

Host interaction (`web_sys`) is modelled explicitly: a `Host` value
describes what the browser environment would answer to each query the code
makes, and functions that in Rust mutate `RefCell` state are embedded as
state-passing functions.  Where the code can panic, the embedding returns
an outcome type with an explicit `panicked` constructor, so "does not
panic" is a provable statement rather than a typing accident.
-/

namespace WinitWeb

/-- A canvas DOM element, reduced to the one host behaviour the embedded
code observes on it: whether `Element::set_attribute` succeeds. -/
structure CanvasElement where
  set_attribute_ok : Bool
deriving DecidableEq

/-- The host document, reduced to the result of
`document.create_element("canvas")`: `none` means the call fails. -/
structure Document where
  created_element : Option CanvasElement
deriving DecidableEq

/-- The host window: the names present in its global scope (what
`window.get(name)` finds) and the result of `window.document()`. -/
structure Window where
  globals : List String
  document : Option Document
deriving DecidableEq

/-- The host environment: the result of `web_sys::window()` and the current
host fullscreen state (readable through `is_fullscreen`). -/
structure Host where
  window : Option Window
  fullscreen : Bool
deriving DecidableEq

/-- Lookup of a name in the window's global scope, `window.get(name)`:
`some` exactly when the name is bound there. -/
def Window.get (w : Window) (name : String) : Option Unit :=
  if w.globals.contains name then some () else none

/-- `has_pointer_event` (canvas.rs:486-492): `false` when `web_sys::window()`
returns nothing, otherwise whether the global `PointerEvent` constructor
exists.  The Rust function only reads the environment; purity here is
expressed by the embedding's type `Host → Bool`. -/
def has_pointer_event (host : Host) : Bool :=
  match host.window with
  | some window => (window.get "PointerEvent").isSome
  | none => false

/-- The state of `Common` (canvas.rs:41-45): the raw canvas element and the
`wants_fullscreen` deferred-retry flag (in Rust an `Rc<RefCell<bool>>`,
embedded by explicit state passing). -/
structure Common where
  raw : CanvasElement
  wants_fullscreen : Bool
deriving DecidableEq

/-- What the host's `requestFullscreen` call answers inside
`Common::request_fullscreen` (canvas.rs:456): `Ok` with a real `Promise`
(carrying whether that promise later resolves or rejects), `Ok(undefined)`
(Safari v<16.4), or a synchronous error. -/
inductive FsHostResponse
  | okPromise (resolves : Bool)
  | okUndefined
  | err
deriving DecidableEq

/-- Synchronous part of `Common::request_fullscreen` (canvas.rs:444-469):
the `Ok(value)` guard `!value.is_undefined()` only spawns the confirmation
task; every other case — `Ok(undefined)` AND a synchronous `Err(_)`, both
matched by the final `_` arm — writes `wants_fullscreen = true`. -/
def Common.requestFullscreenSync (c : Common) (r : FsHostResponse) : Common :=
  match r with
  | .okPromise _ => c
  | .okUndefined => { c with wants_fullscreen := true }
  | .err => { c with wants_fullscreen := true }

/-- `Common::request_fullscreen` after the spawned confirmation task (if
any) has also run (canvas.rs:460-464): a rejected promise writes
`wants_fullscreen = true`, a resolved one writes nothing. -/
def Common.requestFullscreenSettled (c : Common) (r : FsHostResponse) : Common :=
  match r with
  | .okPromise resolves =>
      if resolves then c.requestFullscreenSync r
      else { c.requestFullscreenSync r with wants_fullscreen := true }
  | .okUndefined => c.requestFullscreenSync r
  | .err => c.requestFullscreenSync r

/-- Modelled from the spec: `super::is_fullscreen` lives outside src/ in
this repository; per section 4.4 it "is a pure query of current host
fullscreen state, independent of controller state". -/
def is_fullscreen (host : Host) : Bool :=
  host.fullscreen

/-- What the raw `canvas.request_fullscreen()` host call made by the
deferred-retry path (canvas.rs:399-401, 427-429) answers: the plain
`web_sys` binding returning `Result<(), JsValue>`. -/
inductive RawFsResult
  | ok
  | err
deriving DecidableEq

/-- The atomic observable steps of one listener dispatch, in order. -/
inductive DispatchAction
  | stopPropagation
  | runHandler
  | reissueFullscreenRequest
  | clearFlag
  | panicked
deriving DecidableEq

/-- How one listener dispatch ends: normally, with the resulting
`wants_fullscreen` value, or by aborting the program. -/
inductive DispatchResult
  | normal (wants_fullscreen : Bool)
  | panicked
deriving DecidableEq

/-- One dispatch of the closure built by `Common::add_user_event`
(canvas.rs:383-405), as wrapped by `add_event` (canvas.rs:357-378): stop
propagation, run the caller's handler, then — if `wants_fullscreen` is set —
call the raw host `request_fullscreen` guarded by `expect` (so a host
rejection aborts), and only after that call write the flag to `false`. -/
def Common.userEventDispatch (c : Common) (r : RawFsResult) :
    DispatchResult × List DispatchAction :=
  if c.wants_fullscreen then
    match r with
    | .ok =>
        (.normal false,
         [.stopPropagation, .runHandler, .reissueFullscreenRequest, .clearFlag])
    | .err =>
        (.panicked,
         [.stopPropagation, .runHandler, .reissueFullscreenRequest, .panicked])
  else
    (.normal c.wants_fullscreen, [.stopPropagation, .runHandler])

/-- One dispatch of the closure built by `Common::add_window_mouse_event`
(canvas.rs:411-442): same deferred-retry tail as `add_user_event` (handler,
then raw request under `expect`, then clear), without the
`stop_propagation` prologue. -/
def Common.windowMouseEventDispatch (c : Common) (r : RawFsResult) :
    DispatchResult × List DispatchAction :=
  if c.wants_fullscreen then
    match r with
    | .ok =>
        (.normal false, [.runHandler, .reissueFullscreenRequest, .clearFlag])
    | .err =>
        (.panicked, [.runHandler, .reissueFullscreenRequest, .panicked])
  else
    (.normal c.wants_fullscreen, [.runHandler])

/-- Whether, in a dispatch trace containing both, the flag-clearing step
comes before the fullscreen re-issue. -/
def clearedBeforeReissued (tr : List DispatchAction) : Bool :=
  match tr.findIdx? (· == DispatchAction.clearFlag),
        tr.findIdx? (· == DispatchAction.reissueFullscreenRequest) with
  | some c, some i => decide (c < i)
  | _, _ => true

/-- Whether, in a dispatch trace containing both, the fullscreen re-issue
comes before the flag-clearing step. -/
def reissuedBeforeCleared (tr : List DispatchAction) : Bool :=
  match tr.findIdx? (· == DispatchAction.reissueFullscreenRequest),
        tr.findIdx? (· == DispatchAction.clearFlag) with
  | some i, some c => decide (i < c)
  | _, _ => true

/-- Modelled from the spec: `pointer_handler::PointerHandler` lives outside
src/ in this repository.  Per sections 2-4.3 the pointer strategy owns one
ListenerRegistry slot per subscription of its contract (cursor enter/leave,
press/release, move, touch-cancel); a slot holds the installed handler's
identifier, `none` when nothing is installed. -/
structure PointerHandler where
  on_cursor_leave : Option Nat
  on_cursor_enter : Option Nat
  on_cursor_move : Option Nat
  on_pointer_press : Option Nat
  on_pointer_release : Option Nat
  on_touch_cancel : Option Nat
deriving DecidableEq

/-- Modelled from the spec: `PointerHandler::new()` starts with no
registration installed. -/
def PointerHandler.new : PointerHandler :=
  ⟨none, none, none, none, none, none⟩

/-- Modelled from the spec: the strategy's `remove_listeners` "detaches
every ListenerRegistry owned by the strategy and clears internal tracking
state" (section 4.3). -/
def PointerHandler.removeListeners (_h : PointerHandler) : PointerHandler :=
  PointerHandler.new

/-- Modelled from the spec: `mouse_handler::MouseHandler` lives outside
src/ in this repository.  Per sections 2-4.3 the legacy strategy owns one
ListenerRegistry slot per subscription of its contract (no touch-cancel
slot: the legacy model has no unifying cancel signal) plus internal
per-pointer tracking (captured button / last seen position). -/
structure MouseHandler where
  on_mouse_leave : Option Nat
  on_mouse_enter : Option Nat
  on_mouse_move : Option Nat
  on_mouse_press : Option Nat
  on_mouse_release : Option Nat
  captured_mouse : Option Nat
deriving DecidableEq

/-- Modelled from the spec: `MouseHandler::new()` starts with no
registration installed and nothing tracked. -/
def MouseHandler.new : MouseHandler :=
  ⟨none, none, none, none, none, none⟩

/-- Modelled from the spec: the strategy's `remove_listeners` "detaches
every ListenerRegistry owned by the strategy and clears internal tracking
state" (section 4.3). -/
def MouseHandler.removeListeners (_h : MouseHandler) : MouseHandler :=
  MouseHandler.new

/-- `MouseState` (canvas.rs:477-480): the two-variant strategy choice,
pointer events supported or not. -/
inductive MouseState
  | hasPointerEvent (h : PointerHandler)
  | noPointerEvent (h : MouseHandler)
deriving DecidableEq

/-- Which variant a `MouseState` is. -/
def MouseState.isPointer : MouseState → Bool
  | .hasPointerEvent _ => true
  | .noPointerEvent _ => false

/-- Whether a strategy holds no registration and no tracking state. -/
def MouseState.cleared : MouseState → Bool
  | .hasPointerEvent h => decide (h = PointerHandler.new)
  | .noPointerEvent h => decide (h = MouseHandler.new)

/-- The `Canvas` struct (canvas.rs:26-39): the shared `Common` state, one
`Option` slot per direct event subscription, and the frozen strategy. -/
structure Canvas where
  common : Common
  on_touch_start : Option Nat
  on_touch_end : Option Nat
  on_focus : Option Nat
  on_blur : Option Nat
  on_keyboard_release : Option Nat
  on_keyboard_press : Option Nat
  on_mouse_wheel : Option Nat
  on_fullscreen_change : Option Nat
  on_dark_mode : Option Nat
  mouse_state : MouseState
deriving DecidableEq

/-- `PlatformSpecificWindowBuilderAttributes` as `Canvas::create` reads it:
an optionally supplied canvas element and the `focusable` request. -/
structure PlatformSpecificWindowBuilderAttributes where
  canvas : Option CanvasElement
  focusable : Bool
deriving DecidableEq

/-- The creation error (`OsError` payload of the `os_error!` values built in
canvas.rs:48-75). -/
structure OsError where
  msg : String
deriving DecidableEq

/-- One access `Canvas::create` makes to the host environment, in program
order: `web_sys::window()`, `window.document()`,
`document.create_element("canvas")`, `canvas.set_attribute(..)`. -/
inductive HostAccess
  | window
  | document
  | createElement
  | setAttribute
deriving DecidableEq

/-- Whether an access list touches the global window or document. -/
def consultsWindowOrDocument (acc : List HostAccess) : Bool :=
  acc.any fun a => a == HostAccess.window || a == HostAccess.document

/-- Tail of `Canvas::create` once the element is resolved (canvas.rs:66-99):
optionally set the `tabindex` attribute (an error is returned as "Failed to
set a tabindex"), then probe `has_pointer_event()` — which performs one more
`web_sys::window()` access (canvas.rs:487) — pick the strategy variant, and
assemble the `Canvas` with every slot empty and `wants_fullscreen = false`. -/
def Canvas.createWithElement (attr : PlatformSpecificWindowBuilderAttributes)
    (host : Host) (canvas : CanvasElement) (acc : List HostAccess) :
    Except OsError Canvas × List HostAccess :=
  if attr.focusable then
    if canvas.set_attribute_ok then
      (Except.ok
        { common := { raw := canvas, wants_fullscreen := false },
          on_touch_start := none, on_touch_end := none,
          on_focus := none, on_blur := none,
          on_keyboard_release := none, on_keyboard_press := none,
          on_mouse_wheel := none, on_fullscreen_change := none,
          on_dark_mode := none,
          mouse_state :=
            if has_pointer_event host then
              MouseState.hasPointerEvent PointerHandler.new
            else
              MouseState.noPointerEvent MouseHandler.new },
       acc ++ [HostAccess.setAttribute, HostAccess.window])
    else
      (Except.error ⟨"Failed to set a tabindex"⟩,
       acc ++ [HostAccess.setAttribute])
  else
    (Except.ok
      { common := { raw := canvas, wants_fullscreen := false },
        on_touch_start := none, on_touch_end := none,
        on_focus := none, on_blur := none,
        on_keyboard_release := none, on_keyboard_press := none,
        on_mouse_wheel := none, on_fullscreen_change := none,
        on_dark_mode := none,
        mouse_state :=
          if has_pointer_event host then
            MouseState.hasPointerEvent PointerHandler.new
          else
            MouseState.noPointerEvent MouseHandler.new },
     acc ++ [HostAccess.window])

/-- `Canvas::create` (canvas.rs:48-99).  A supplied canvas is used as is;
otherwise the element is created through `web_sys::window()`,
`window.document()` and `document.create_element("canvas")`, each failure
returned as the corresponding `OsError`.  The second component records each
host-environment access in program order. -/
def Canvas.create (attr : PlatformSpecificWindowBuilderAttributes)
    (host : Host) : Except OsError Canvas × List HostAccess :=
  match attr.canvas with
  | some canvas => Canvas.createWithElement attr host canvas []
  | none =>
    match host.window with
    | none => (Except.error ⟨"Failed to obtain window"⟩, [HostAccess.window])
    | some window =>
      match window.document with
      | none =>
          (Except.error ⟨"Failed to obtain document"⟩,
           [HostAccess.window, HostAccess.document])
      | some document =>
        match document.created_element with
        | none =>
            (Except.error ⟨"Failed to create canvas element"⟩,
             [HostAccess.window, HostAccess.document, HostAccess.createElement])
        | some canvas =>
            Canvas.createWithElement attr host canvas
              [HostAccess.window, HostAccess.document, HostAccess.createElement]

/-- Whether an `Except` is a success. -/
def exceptIsOk {ε α : Type} : Except ε α → Bool
  | .ok _ => true
  | .error _ => false

/-- `Canvas::on_touch_start` (canvas.rs:142-148): installs the handler
`id` in the touch-start slot (an `add_event` registration). -/
def Canvas.onTouchStart (c : Canvas) (id : Nat) : Canvas :=
  { c with on_touch_start := some id }

/-- `Canvas::on_touch_end` (canvas.rs:150-156). -/
def Canvas.onTouchEnd (c : Canvas) (id : Nat) : Canvas :=
  { c with on_touch_end := some id }

/-- `Canvas::on_blur` (canvas.rs:158-165). -/
def Canvas.onBlur (c : Canvas) (id : Nat) : Canvas :=
  { c with on_blur := some id }

/-- `Canvas::on_focus` (canvas.rs:167-174). -/
def Canvas.onFocus (c : Canvas) (id : Nat) : Canvas :=
  { c with on_focus := some id }

/-- `Canvas::on_keyboard_release` (canvas.rs:176-198), an `add_user_event`
registration. -/
def Canvas.onKeyboardRelease (c : Canvas) (id : Nat) : Canvas :=
  { c with on_keyboard_release := some id }

/-- `Canvas::on_keyboard_press` (canvas.rs:200-222), an `add_user_event`
registration. -/
def Canvas.onKeyboardPress (c : Canvas) (id : Nat) : Canvas :=
  { c with on_keyboard_press := some id }

/-- `Canvas::on_cursor_leave` (canvas.rs:224-232): delegates to the frozen
strategy variant's handler. -/
def Canvas.onCursorLeave (c : Canvas) (id : Nat) : Canvas :=
  match c.mouse_state with
  | .hasPointerEvent h =>
      { c with mouse_state := .hasPointerEvent { h with on_cursor_leave := some id } }
  | .noPointerEvent h =>
      { c with mouse_state := .noPointerEvent { h with on_mouse_leave := some id } }

/-- `Canvas::on_cursor_enter` (canvas.rs:234-242). -/
def Canvas.onCursorEnter (c : Canvas) (id : Nat) : Canvas :=
  match c.mouse_state with
  | .hasPointerEvent h =>
      { c with mouse_state := .hasPointerEvent { h with on_cursor_enter := some id } }
  | .noPointerEvent h =>
      { c with mouse_state := .noPointerEvent { h with on_mouse_enter := some id } }

/-- `Canvas::on_mouse_release` (canvas.rs:244-255); the legacy variant
receives only the mouse handler. -/
def Canvas.onMouseRelease (c : Canvas) (id : Nat) : Canvas :=
  match c.mouse_state with
  | .hasPointerEvent h =>
      { c with mouse_state := .hasPointerEvent { h with on_pointer_release := some id } }
  | .noPointerEvent h =>
      { c with mouse_state := .noPointerEvent { h with on_mouse_release := some id } }

/-- `Canvas::on_mouse_press` (canvas.rs:257-268). -/
def Canvas.onMousePress (c : Canvas) (id : Nat) : Canvas :=
  match c.mouse_state with
  | .hasPointerEvent h =>
      { c with mouse_state := .hasPointerEvent { h with on_pointer_press := some id } }
  | .noPointerEvent h =>
      { c with mouse_state := .noPointerEvent { h with on_mouse_press := some id } }

/-- `Canvas::on_cursor_move` (canvas.rs:270-285). -/
def Canvas.onCursorMove (c : Canvas) (id : Nat) : Canvas :=
  match c.mouse_state with
  | .hasPointerEvent h =>
      { c with mouse_state := .hasPointerEvent { h with on_cursor_move := some id } }
  | .noPointerEvent h =>
      { c with mouse_state := .noPointerEvent { h with on_mouse_move := some id } }

/-- `Canvas::on_touch_cancel` (canvas.rs:287-294): an `if let` on the
pointer variant only — on the legacy variant nothing happens at all, the
`Canvas` is returned unchanged. -/
def Canvas.onTouchCancel (c : Canvas) (id : Nat) : Canvas :=
  match c.mouse_state with
  | .hasPointerEvent h =>
      { c with mouse_state := .hasPointerEvent { h with on_touch_cancel := some id } }
  | .noPointerEvent _ => c

/-- `Canvas::on_mouse_wheel` (canvas.rs:296-310). -/
def Canvas.onMouseWheel (c : Canvas) (id : Nat) : Canvas :=
  { c with on_mouse_wheel := some id }

/-- `Canvas::on_fullscreen_change` (canvas.rs:312-320). -/
def Canvas.onFullscreenChange (c : Canvas) (id : Nat) : Canvas :=
  { c with on_fullscreen_change := some id }

/-- `Canvas::on_dark_mode` (canvas.rs:322-332). -/
def Canvas.onDarkMode (c : Canvas) (id : Nat) : Canvas :=
  { c with on_dark_mode := some id }

/-- `Canvas::request_fullscreen` (canvas.rs:334-336), the synchronous part
of the delegated `Common::request_fullscreen`. -/
def Canvas.requestFullscreen (c : Canvas) (r : FsHostResponse) : Canvas :=
  { c with common := c.common.requestFullscreenSync r }

/-- `Canvas::remove_listeners` (canvas.rs:342-355): drops the focus, blur,
keyboard, wheel, fullscreen-change and dark-mode registrations and tells
the strategy to remove its own.  The `on_touch_start` and `on_touch_end`
fields are not assigned in this method's body. -/
def Canvas.removeListeners (c : Canvas) : Canvas :=
  { c with
    on_focus := none, on_blur := none,
    on_keyboard_release := none, on_keyboard_press := none,
    on_mouse_wheel := none, on_fullscreen_change := none,
    on_dark_mode := none,
    mouse_state :=
      match c.mouse_state with
      | .hasPointerEvent h => .hasPointerEvent h.removeListeners
      | .noPointerEvent h => .noPointerEvent h.removeListeners }

/-- Whether each of the nine direct subscription slots of the `Canvas`
(touch-start, touch-end, focus, blur, key-up, key-down, wheel,
fullscreen-change, color-scheme) holds no registration. -/
def Canvas.allSlotsCleared (c : Canvas) : Bool :=
  c.on_touch_start.isNone && c.on_touch_end.isNone &&
  c.on_focus.isNone && c.on_blur.isNone &&
  c.on_keyboard_release.isNone && c.on_keyboard_press.isNone &&
  c.on_mouse_wheel.isNone && c.on_fullscreen_change.isNone &&
  c.on_dark_mode.isNone

/-- Modelled from the spec: dispatching a host touch-cancel signal invokes
the handler installed in the strategy's touch-cancel slot, if any (section
4.3); the legacy strategy owns no such slot, so no handler can ever be
invoked there. -/
def Canvas.dispatchTouchCancel (c : Canvas) : Option Nat :=
  match c.mouse_state with
  | .hasPointerEvent h => h.on_touch_cancel
  | .noPointerEvent _ => none

/-- The public `Canvas` operations that can run after creation, with the
fresh handler identifier (or host answer) each carries. -/
inductive Op
  | onTouchStart (id : Nat)
  | onTouchEnd (id : Nat)
  | onBlur (id : Nat)
  | onFocus (id : Nat)
  | onKeyboardRelease (id : Nat)
  | onKeyboardPress (id : Nat)
  | onCursorLeave (id : Nat)
  | onCursorEnter (id : Nat)
  | onMouseRelease (id : Nat)
  | onMousePress (id : Nat)
  | onCursorMove (id : Nat)
  | onTouchCancel (id : Nat)
  | onMouseWheel (id : Nat)
  | onFullscreenChange (id : Nat)
  | onDarkMode (id : Nat)
  | requestFullscreen (r : FsHostResponse)
  | removeListeners
deriving DecidableEq

/-- One public operation applied to the `Canvas`. -/
def Canvas.step (c : Canvas) : Op → Canvas
  | .onTouchStart id => c.onTouchStart id
  | .onTouchEnd id => c.onTouchEnd id
  | .onBlur id => c.onBlur id
  | .onFocus id => c.onFocus id
  | .onKeyboardRelease id => c.onKeyboardRelease id
  | .onKeyboardPress id => c.onKeyboardPress id
  | .onCursorLeave id => c.onCursorLeave id
  | .onCursorEnter id => c.onCursorEnter id
  | .onMouseRelease id => c.onMouseRelease id
  | .onMousePress id => c.onMousePress id
  | .onCursorMove id => c.onCursorMove id
  | .onTouchCancel id => c.onTouchCancel id
  | .onMouseWheel id => c.onMouseWheel id
  | .onFullscreenChange id => c.onFullscreenChange id
  | .onDarkMode id => c.onDarkMode id
  | .requestFullscreen r => c.requestFullscreen r
  | .removeListeners => c.removeListeners

/-- The host element's `set_attribute` call (section 6 collaborator
interface): succeeds or fails according to the element. -/
def CanvasElement.set_attribute (el : CanvasElement)
    (_attrName _attrValue : String) : Except String Unit :=
  if el.set_attribute_ok then Except.ok () else Except.error "JsValue"

/-- How `Canvas::set_attribute` ends: a normal return or a program abort. -/
inductive SetAttrOutcome
  | returned
  | panicked
deriving DecidableEq

/-- `Canvas::set_attribute` (canvas.rs:115-120): the host call's error is
consumed by `unwrap_or_else(.. panic ..)`, so the method either returns
unit or aborts the program; no error value reaches the caller. -/
def Canvas.setAttribute (c : Canvas) (attrName attrValue : String) :
    SetAttrOutcome :=
  match c.common.raw.set_attribute attrName attrValue with
  | Except.ok _ => SetAttrOutcome.returned
  | Except.error _ => SetAttrOutcome.panicked

/-- One action on the host event target: attaching a listener (performed by
`EventListenerHandle` construction) or detaching it (performed when the
handle is dropped).  Modelled from the spec for the handle itself
(`event_handle.rs` lives outside src/): section 4.2, construction attaches
the handler and releasing the handle deregisters it synchronously. -/
inductive RegAction
  | install (id : Nat)
  | release (id : Nat)
deriving DecidableEq

/-- The wheel subscription slot seen together with the host target it
registers on: `slot` is the `on_mouse_wheel` field, `active` the listeners
currently attached to the target (in attachment order), `next_id` the
identity the next created handle receives. -/
structure WheelSlot where
  slot : Option Nat
  active : List Nat
  next_id : Nat
deriving DecidableEq

/-- One call of `Canvas::on_mouse_wheel` (canvas.rs:296-310) at the slot
level: `self.on_mouse_wheel = Some(self.common.add_event("wheel", ..))`.
The right-hand side runs first, constructing the new handle and attaching
its listener; the assignment then drops the slot's previous handle, which
detaches the previous listener.  The returned trace lists the two actions
in that order. -/
def WheelSlot.onMouseWheel (s : WheelSlot) : WheelSlot × List RegAction :=
  let newId := s.next_id
  let attached := s.active ++ [newId]
  match s.slot with
  | some oldId =>
      ({ slot := some newId, active := attached.erase oldId, next_id := newId + 1 },
       [RegAction.install newId, RegAction.release oldId])
  | none =>
      ({ slot := some newId, active := attached, next_id := newId + 1 },
       [RegAction.install newId])

/-- The handlers a wheel event arriving now would invoke: exactly the
listeners attached to the host target. -/
def WheelSlot.wheelDispatch (s : WheelSlot) : List Nat :=
  s.active

/-- Whether, in a registration trace containing both, the first release
comes before the first install. -/
def releasedBeforeInstalled (tr : List RegAction) : Bool :=
  match tr.findIdx? (fun a => match a with | RegAction.release _ => true | _ => false),
        tr.findIdx? (fun a => match a with | RegAction.install _ => true | _ => false) with
  | some r, some i => decide (r < i)
  | _, _ => true

/-- The failure condition of `Canvas::create` exactly as the claim words it
(a reference definition written from the claim's words, to be compared with
`Canvas.create`, which is embedded from the source): with no supplied
canvas, create fails exactly when the window, the document or element
creation is unavailable; with focusability requested it additionally fails
exactly when setting the tabindex attribute on the resolved element
fails. -/
def createFailsClaim (attr : PlatformSpecificWindowBuilderAttributes)
    (host : Host) : Bool :=
  match attr.canvas with
  | some el => attr.focusable && !el.set_attribute_ok
  | none =>
    match host.window with
    | none => true
    | some window =>
      match window.document with
      | none => true
      | some document =>
        match document.created_element with
        | none => true
        | some el => attr.focusable && !el.set_attribute_ok

/-- A concrete legacy-strategy canvas with every subscription slot occupied
and tracking state present. -/
def exLegacyCanvas : Canvas :=
  { common := { raw := { set_attribute_ok := true }, wants_fullscreen := false },
    on_touch_start := some 0, on_touch_end := some 1,
    on_focus := some 2, on_blur := some 3,
    on_keyboard_release := some 4, on_keyboard_press := some 5,
    on_mouse_wheel := some 6, on_fullscreen_change := some 7,
    on_dark_mode := some 8,
    mouse_state :=
      MouseState.noPointerEvent ⟨some 9, some 10, some 11, some 12, some 13, some 14⟩ }

/-- A concrete supplied canvas element whose attribute sets succeed. -/
def exElement : CanvasElement :=
  ⟨true⟩

/-- A concrete headless host: no window, not fullscreen. -/
def exHost : Host :=
  ⟨none, false⟩

/-- Creation attributes supplying `exElement`, focusability not requested. -/
def exAttr : PlatformSpecificWindowBuilderAttributes :=
  ⟨some exElement, false⟩

/-- The canvas `Canvas.create exAttr exHost` produces. -/
def exCreatedCanvas : Canvas :=
  { common := { raw := exElement, wants_fullscreen := false },
    on_touch_start := none, on_touch_end := none,
    on_focus := none, on_blur := none,
    on_keyboard_release := none, on_keyboard_press := none,
    on_mouse_wheel := none, on_fullscreen_change := none,
    on_dark_mode := none,
    mouse_state := MouseState.noPointerEvent MouseHandler.new }

/-- A concrete operation sequence exercising dispatch, removal and the
fullscreen path. -/
def exOps : List Op :=
  [Op.onCursorEnter 1, Op.onMousePress 2, Op.removeListeners,
   Op.onTouchCancel 3, Op.requestFullscreen FsHostResponse.err]

/-- C1, counterexample.  The claim says a synchronous host error leaves
`wants_fullscreen` false.  Starting from the Idle state (flag false), a
synchronous `Err(_)` from the host lands in the `_` match arm of
`Common::request_fullscreen` (canvas.rs:467) together with `Ok(undefined)`,
and that arm writes the flag to `true` — not false. -/
theorem c1_sync_reject_flag_counterexample :
    (Common.requestFullscreenSync ⟨⟨true⟩, false⟩ FsHostResponse.err).wants_fullscreen ≠ false := by
  decide

/-- C1, amended.  When the host's fullscreen request fails synchronously,
`Common::request_fullscreen` sets the deferred-retry flag
`wants_fullscreen` to `true` (the synchronous error is matched by the same
`_` arm as the unverifiable Safari case, so a retry IS scheduled rather
than the controller returning to Idle); `is_fullscreen()` remains a pure
host query and still reports false whenever the host did not enter
fullscreen. -/
theorem c1_sync_reject_sets_deferred_flag (c : Common) (host : Host) :
    (Common.requestFullscreenSync c FsHostResponse.err).wants_fullscreen = true ∧
    (host.fullscreen = false → is_fullscreen host = false) := by
  exact ⟨rfl, fun h => h⟩

/-- C2, counterexample.  The claim says the deferred-retry flag is cleared
before the fullscreen request is re-issued.  In a user-originated dispatch
that finds the flag set and whose raw host call succeeds, the trace is
stop-propagation, handler, re-issue, clear: the re-issue (canvas.rs:399-401)
comes strictly before the flag write (canvas.rs:402). -/
theorem c2_clear_before_reissue_counterexample :
    clearedBeforeReissued (Common.userEventDispatch ⟨⟨true⟩, true⟩ RawFsResult.ok).2 = false := by
  decide

/-- C2, amended.  In every dispatch of a user-originated event (and of a
window-scoped mouse event), exactly one retry is re-issued when the
deferred flag is set and none when it is clear, and whenever the flag is
cleared in the dispatch the re-issue precedes the clearing — the code
re-issues first and clears after (aborting before the clear if the host
rejects the retry), rather than clearing before re-issuing. -/
theorem c2_retry_reissue_then_clear (c : Common) (r : RawFsResult) :
    ((Common.userEventDispatch c r).2.count DispatchAction.reissueFullscreenRequest
        = cond c.wants_fullscreen 1 0) ∧
    reissuedBeforeCleared (Common.userEventDispatch c r).2 = true ∧
    ((Common.windowMouseEventDispatch c r).2.count DispatchAction.reissueFullscreenRequest
        = cond c.wants_fullscreen 1 0) ∧
    reissuedBeforeCleared (Common.windowMouseEventDispatch c r).2 = true := by
  obtain ⟨raw, w⟩ := c
  cases w <;> cases r <;> exact ⟨rfl, rfl, rfl, rfl⟩

/-- C4, counterexample.  The claim says the deferred-retry re-issue inside
a user-originated dispatch never aborts the program.  With the flag set and
the host rejecting the raw retry call, the `expect("Failed to enter
fullscreen")` (canvas.rs:401) aborts. -/
theorem c4_retry_panics_counterexample :
    (Common.userEventDispatch ⟨⟨true⟩, true⟩ RawFsResult.err).1 = DispatchResult.panicked := by
  decide

/-- C4, amended.  `Common::request_fullscreen` itself recovers every
fullscreen failure internally: it only ever writes the deferred flag and
never touches anything else (nor can it abort — its embedding has no abort
outcome).  The deferred-retry re-issue inside a user-originated or
window-mouse dispatch, however, aborts the program exactly when the flag is
set and the host rejects the raw retry call synchronously. -/
theorem c4_panic_characterization (c : Common) (r : FsHostResponse)
    (d : Common) (q : RawFsResult) :
    (Common.requestFullscreenSettled c r).raw = c.raw ∧
    ((Common.userEventDispatch d q).1 = DispatchResult.panicked ↔
      d.wants_fullscreen = true ∧ q = RawFsResult.err) ∧
    ((Common.windowMouseEventDispatch d q).1 = DispatchResult.panicked ↔
      d.wants_fullscreen = true ∧ q = RawFsResult.err) := by
  obtain ⟨raw, w⟩ := c
  obtain ⟨raw2, w2⟩ := d
  refine ⟨?_, ?_, ?_⟩
  · rcases r with (_ | _) | _ | _ <;> rfl
  · cases w2 <;> cases q <;>
      simp [Common.userEventDispatch]
  · cases w2 <;> cases q <;>
      simp [Common.windowMouseEventDispatch]

/-- C7.  `has_pointer_event` returns false whenever no host environment is
reachable (`web_sys::window()` answers nothing), and otherwise returns
whether the `PointerEvent` constructor exists in the window's global scope.
It is pure and side-effect-free: the embedding's type `Host → Bool` returns
no changed host state. -/
theorem c7_has_pointer_event_characterization (host : Host) :
    (host.window = none → has_pointer_event host = false) ∧
    (∀ w, host.window = some w →
      has_pointer_event host = (w.get "PointerEvent").isSome) := by
  constructor
  · intro h
    simp [has_pointer_event, h]
  · intro w h
    simp [has_pointer_event, h]

/-- C9.  A post-creation `Canvas::set_attribute` call aborts the program if
and only if the underlying host attribute-set operation fails, and returns
normally if and only if it succeeds; the failure is consumed by
`unwrap_or_else(.. panic ..)` (canvas.rs:119), never returned to the caller
as a recoverable error. -/
theorem c9_set_attribute_panics_iff (c : Canvas) (a v : String) :
    (c.setAttribute a v = SetAttrOutcome.panicked ↔
      exceptIsOk (c.common.raw.set_attribute a v) = false) ∧
    (c.setAttribute a v = SetAttrOutcome.returned ↔
      exceptIsOk (c.common.raw.set_attribute a v) = true) := by
  cases hs : c.common.raw.set_attribute_ok <;>
    simp [Canvas.setAttribute, CanvasElement.set_attribute, exceptIsOk, hs]

/-- C3, counterexample.  The claim says `remove_listeners()` leaves every
subscription slot, the touch-start and touch-end slots included, without a
registration.  On a canvas with all slots occupied, the method's body
(canvas.rs:342-355) never assigns `on_touch_start` or `on_touch_end`, so
those two registrations survive and the slots are not all cleared. -/
theorem c3_remove_listeners_counterexample :
    Canvas.allSlotsCleared (Canvas.removeListeners exLegacyCanvas) = false := by
  decide

/-- C3, amended.  After `remove_listeners()` returns, the focus, blur,
key-up, key-down, wheel, fullscreen-change and color-scheme slots hold no
registration and the strategy's internal listeners and tracking state are
cleared, but the touch-start and touch-end slots are left exactly as they
were — the method does not release them. -/
theorem c3_remove_listeners_clears_all_but_touch (c : Canvas) :
    (c.removeListeners.on_focus = none ∧ c.removeListeners.on_blur = none ∧
     c.removeListeners.on_keyboard_release = none ∧
     c.removeListeners.on_keyboard_press = none ∧
     c.removeListeners.on_mouse_wheel = none ∧
     c.removeListeners.on_fullscreen_change = none ∧
     c.removeListeners.on_dark_mode = none) ∧
    c.removeListeners.mouse_state.cleared = true ∧
    c.removeListeners.on_touch_start = c.on_touch_start ∧
    c.removeListeners.on_touch_end = c.on_touch_end := by
  obtain ⟨com, ts, te, f, b, kr, kp, mw, fc, dm, ms⟩ := c
  cases ms <;>
    simp [Canvas.removeListeners, MouseState.cleared,
      PointerHandler.removeListeners, MouseHandler.removeListeners]

/-- C8.  On a legacy-strategy surface (no pointer-event support),
`on_touch_cancel` is a no-op: the whole canvas state is unchanged, nothing
is installed, and a touch-cancel dispatch still invokes no handler; on a
pointer-strategy surface the same call installs the handler in the
strategy's touch-cancel slot. -/
theorem c8_touch_cancel_noop_vs_install (c : Canvas) (id : Nat) :
    (c.mouse_state.isPointer = false →
      c.onTouchCancel id = c ∧ (c.onTouchCancel id).dispatchTouchCancel = none) ∧
    (∀ h, c.mouse_state = MouseState.hasPointerEvent h →
      (c.onTouchCancel id).mouse_state =
        MouseState.hasPointerEvent { h with on_touch_cancel := some id }) := by
  obtain ⟨com, ts, te, f, b, kr, kp, mw, fc, dm, ms⟩ := c
  cases ms with
  | hasPointerEvent h =>
      constructor
      · intro hleg
        simp [MouseState.isPointer] at hleg
      · intro h2 hm
        injection hm with hh
        subst hh
        rfl
  | noPointerEvent h =>
      constructor
      · intro _
        exact ⟨rfl, rfl⟩
      · intro h2 hm
        exact MouseState.noConfusion hm

/-- C6, counterexample.  The claim says that on a second subscription the
previous registration is released before the new one is installed.
Starting from a fresh slot and calling `on_mouse_wheel` twice, the second
call's trace is install-then-release: the right-hand side of
`self.on_mouse_wheel = Some(self.common.add_event(..))` attaches the new
listener first, and only the assignment's drop of the old handle
releases the previous one. -/
theorem c6_release_order_counterexample :
    releasedBeforeInstalled
      ((WheelSlot.onMouseWheel (WheelSlot.onMouseWheel ⟨none, [], 0⟩).1).2) = false := by
  decide

/-- C6, amended.  Calling the wheel subscription a second time leaves
exactly one active registration for the slot (the new one), and the first
handler is never invoked after the second subscription completes (it is no
longer attached, so a wheel dispatch cannot reach it); however the new
registration is installed before the previous one is released, not the
other way around. -/
theorem c6_resubscribe_single_active (s : WheelSlot) (oldId : Nat)
    (hslot : s.slot = some oldId) (hactive : s.active = [oldId])
    (hfresh : oldId ≠ s.next_id) :
    (WheelSlot.onMouseWheel s).1.active = [s.next_id] ∧
    oldId ∉ (WheelSlot.onMouseWheel s).1.wheelDispatch ∧
    (WheelSlot.onMouseWheel s).2 =
      [RegAction.install s.next_id, RegAction.release oldId] := by
  obtain ⟨slot, active, nid⟩ := s
  simp only at hslot hactive hfresh
  subst hslot
  subst hactive
  refine ⟨?_, ?_, rfl⟩
  · simp [WheelSlot.onMouseWheel, List.erase_cons_head]
  · simp [WheelSlot.onMouseWheel, WheelSlot.wheelDispatch, List.erase_cons_head]
    exact hfresh

/-- C6, witness: the amended theorem at the state reached by a first
subscription from a fresh slot. -/
theorem c6_resubscribe_single_active_witness :
    (WheelSlot.onMouseWheel ⟨some 0, [0], 1⟩).1.active = [1] ∧
    0 ∉ (WheelSlot.onMouseWheel ⟨some 0, [0], 1⟩).1.wheelDispatch ∧
    (WheelSlot.onMouseWheel ⟨some 0, [0], 1⟩).2 =
      [RegAction.install 1, RegAction.release 0] :=
  c6_resubscribe_single_active ⟨some 0, [0], 1⟩ 0 rfl rfl (by decide)

/-- Every public operation leaves the strategy variant untouched: each
dispatch site matches on `mouse_state` and rebuilds the same constructor. -/
theorem step_preserves_variant (c : Canvas) (op : Op) :
    (Canvas.step c op).mouse_state.isPointer = c.mouse_state.isPointer := by
  obtain ⟨com, ts, te, f, b, kr, kp, mw, fc, dm, ms⟩ := c
  cases ms <;> cases op <;> rfl

/-- Folding any operation sequence leaves the strategy variant untouched. -/
theorem foldl_step_preserves_variant (ops : List Op) (c : Canvas) :
    (ops.foldl Canvas.step c).mouse_state.isPointer = c.mouse_state.isPointer := by
  induction ops generalizing c with
  | nil => rfl
  | cons op rest ih =>
      rw [List.foldl_cons, ih, step_preserves_variant]

/-- A successful `createWithElement` picks the variant from the
`has_pointer_event` probe of the host it was given. -/
theorem createWithElement_ok_variant (attr : PlatformSpecificWindowBuilderAttributes)
    (host : Host) (el : CanvasElement) (acc : List HostAccess) (c : Canvas)
    (h : (Canvas.createWithElement attr host el acc).1 = Except.ok c) :
    c.mouse_state.isPointer = has_pointer_event host := by
  unfold Canvas.createWithElement at h
  split at h
  · split at h
    · simp only [Except.ok.injEq] at h
      subst h
      cases hp : has_pointer_event host <;> simp [hp, MouseState.isPointer]
    · simp at h
  · simp only [Except.ok.injEq] at h
    subst h
    cases hp : has_pointer_event host <;> simp [hp, MouseState.isPointer]

/-- A successful `Canvas::create` picks the variant from the
`has_pointer_event` probe. -/
theorem create_ok_variant (attr : PlatformSpecificWindowBuilderAttributes)
    (host : Host) (c : Canvas)
    (h : (Canvas.create attr host).1 = Except.ok c) :
    c.mouse_state.isPointer = has_pointer_event host := by
  unfold Canvas.create at h
  split at h
  · exact createWithElement_ok_variant _ _ _ _ _ h
  · split at h
    · simp at h
    · split at h
      · simp at h
      · split at h
        · simp at h
        · exact createWithElement_ok_variant _ _ _ _ _ h

/-- C5.  The strategy variant is chosen exactly once at creation from the
capability probe, and it is frozen: after any sequence of later public
operations (subscriptions, dispatch-site calls, touch-cancel, fullscreen
requests, listener removal) the canvas still carries the variant the probe
chose at creation — no operation re-probes or changes it. -/
theorem c5_strategy_frozen (attr : PlatformSpecificWindowBuilderAttributes)
    (host : Host) (c : Canvas) (ops : List Op)
    (h : (Canvas.create attr host).1 = Except.ok c) :
    (ops.foldl Canvas.step c).mouse_state.isPointer = has_pointer_event host := by
  rw [foldl_step_preserves_variant]
  exact create_ok_variant attr host c h

/-- C5, witness: a canvas created on a headless host (legacy variant) keeps
the legacy variant across a concrete operation sequence. -/
theorem c5_strategy_frozen_witness :
    (Canvas.create exAttr exHost).1 = Except.ok exCreatedCanvas ∧
    (exOps.foldl Canvas.step exCreatedCanvas).mouse_state.isPointer =
      has_pointer_event exHost :=
  ⟨rfl, c5_strategy_frozen exAttr exHost exCreatedCanvas exOps rfl⟩

/-- Once the element is resolved, creation succeeds unless focusability was
requested and the tabindex attribute set fails. -/
theorem createWithElement_isOk (attr : PlatformSpecificWindowBuilderAttributes)
    (host : Host) (el : CanvasElement) (acc : List HostAccess) :
    exceptIsOk (Canvas.createWithElement attr host el acc).1
      = !(attr.focusable && !el.set_attribute_ok) := by
  obtain ⟨oc, fo⟩ := attr
  obtain ⟨sk⟩ := el
  cases fo <;> cases sk <;> rfl

/-- C10, counterexample.  The claim says that with a supplied canvas
element and no focusability request, `Canvas::create` succeeds without
consulting the global window/document.  It does succeed, but the
`has_pointer_event()` strategy probe (canvas.rs:77, 487) performs a
`web_sys::window()` access on every successful run, so the global window is
consulted even in this case. -/
theorem c10_probe_consults_window_counterexample :
    consultsWindowOrDocument (Canvas.create ⟨some ⟨true⟩, false⟩ ⟨none, false⟩).2 = true := by
  decide

/-- C10, amended.  `Canvas::create` fails exactly as the claim's error
characterization says: never for a supplied canvas without focusability;
with no supplied canvas, exactly when the window, the document or element
creation is unavailable; with focusability requested, additionally exactly
when setting the tabindex attribute fails.  With a supplied canvas and no
focusability request it always succeeds, but its only host access is the
infallible `web_sys::window()` lookup of the capability probe (it never
consults the document). -/
theorem c10_create_error_characterization
    (attr : PlatformSpecificWindowBuilderAttributes) (host : Host) :
    exceptIsOk (Canvas.create attr host).1 = !createFailsClaim attr host ∧
    (∀ el, attr.canvas = some el → attr.focusable = false →
      exceptIsOk (Canvas.create attr host).1 = true ∧
      (Canvas.create attr host).2 = [HostAccess.window]) := by
  constructor
  · cases hoc : attr.canvas with
    | some el =>
        simp only [Canvas.create, createFailsClaim, hoc]
        exact createWithElement_isOk attr host el []
    | none =>
        cases hw : host.window with
        | none =>
            simp [Canvas.create, createFailsClaim, hoc, hw, exceptIsOk]
        | some w =>
            cases hd : w.document with
            | none =>
                simp [Canvas.create, createFailsClaim, hoc, hw, hd, exceptIsOk]
            | some d =>
                cases hce : d.created_element with
                | none =>
                    simp [Canvas.create, createFailsClaim, hoc, hw, hd, hce, exceptIsOk]
                | some el =>
                    simp only [Canvas.create, createFailsClaim, hoc, hw, hd, hce]
                    exact createWithElement_isOk attr host el _
  · intro el h1 h2
    simp [Canvas.create, Canvas.createWithElement, h1, h2, exceptIsOk]

end WinitWeb
